import Mathlib

/-!
Verification of the Auto-Review assignment-grading pipeline.

The definitions below are a shallow embedding of the Python sources:
`api_client.py` (backoff computation, retrying detail-fetch executor,
availability prober), `submitter.py` (grade submission), `reviewer.py`
(feedback truncation and marks parsing), `auto_review.py` (per-item
processing and the main orchestration loop) and `utils.py` (countdown
wait).  Strings are modelled as `List Char`; Python floats produced by
parsing decimal literals are modelled as exact rationals; randomness and
each HTTP response are passed in explicitly.
-/

set_option maxRecDepth 20000

/-! ## Python string / numeric primitives -/

/-- Whitespace class used by Python's `\s` (ASCII part) and `str.strip`. -/
def isWs (c : Char) : Bool :=
  c = ' ' || c = '\t' || c = '\n' || c = '\r' || c = '\x0b' || c = '\x0c'

/-- Value of a list of decimal digit characters (most significant first). -/
def natOfDigits (l : List Char) : ℕ :=
  l.foldl (fun a c => a * 10 + (c.toNat - 48)) 0

/-- Case-insensitive literal match: if lowering the head of `l` yields the
([lowercase] pattern) `pat`, return the remainder of `l`. -/
def stripCI : List Char → List Char → Option (List Char)
  | [], l => some l
  | _ :: _, [] => none
  | p :: ps, c :: cs => if c.toLower = p then stripCI ps cs else none

/-- Split at the first occurrence of `sep`: returns the part before it and
the part after it, or `none` when `sep` does not occur. -/
def findSplit (sep : List Char) : List Char → Option (List Char × List Char)
  | [] => none
  | c :: rest =>
    if sep.isPrefixOf (c :: rest) then some ([], (c :: rest).drop sep.length)
    else
      match findSplit sep rest with
      | some (a, b) => some (c :: a, b)
      | none => none

/-- Python's `sep in s` substring test (for nonempty `sep`). -/
def containsSub (sep l : List Char) : Bool := (findSplit sep l).isSome

/-- Python's `s.split(sep)[0]`: the part before the first occurrence of
`sep`, or the whole string when `sep` is absent. -/
def pySplit0 (sep l : List Char) : List Char :=
  match findSplit sep l with
  | none => l
  | some (a, _) => a

/-- Python's `s.split(sep)[1]`: the part between the first and second
occurrences of `sep` (`[]` when `sep` is absent, matching the guarded use). -/
def pySplit1 (sep l : List Char) : List Char :=
  match findSplit sep l with
  | none => []
  | some (_, b) => pySplit0 sep b

/-- Python's `s.strip()`. -/
def pyStrip (l : List Char) : List Char :=
  ((l.dropWhile isWs).reverse.dropWhile isWs).reverse

/-- Python's `s.rsplit('.', 1)[0]`: everything before the last period, or
the whole string when there is no period. -/
def rsplitDotHead (l : List Char) : List Char :=
  if '.' ∈ l then ((l.reverse.dropWhile (fun c => !(c = '.'))).drop 1).reverse
  else l

/-- Extension part of Python's `os.path.splitext`: the suffix from the last
period of the basename, provided some earlier basename character is not a
period (so dotfiles have no extension). -/
def splitextExt (path : List Char) : List Char :=
  let base := (path.reverse.takeWhile (fun c => !(c = '/'))).reverse
  let rb := base.reverse
  let afterDotRev := rb.takeWhile (fun c => !(c = '.'))
  if afterDotRev.length = rb.length then []
  else
    let beforeDot := (rb.drop (afterDotRev.length + 1)).reverse
    if beforeDot.any (fun c => !(c = '.')) then '.' :: afterDotRev.reverse
    else []

/-- Python's `int()` applied to a real value: truncation toward zero. -/
def pyInt (q : ℚ) : ℤ := if 0 ≤ q then ⌊q⌋ else -⌊-q⌋

/-- Python's `float()` on a nonempty string drawn from `[0-9.]+`: defined
for at most one period and at least one digit. -/
def pyFloat (g : List Char) : Option ℚ :=
  if g.count '.' = 0 then
    if g.isEmpty then none else some (natOfDigits g)
  else if g.count '.' = 1 then
    let ip := g.takeWhile (fun c => !(c = '.'))
    let fp := (g.dropWhile (fun c => !(c = '.'))).drop 1
    if ip.isEmpty && fp.isEmpty then none
    else some ((natOfDigits ip : ℚ) + (natOfDigits fp : ℚ) / 10 ^ fp.length)
  else none

/-! ## Backoff policy (`api_client.py`, lines 64–97)

`fetch_submission_details` parses the 429 body message with the regex
`after\s+([\d.]+)\s+minutes?` (case-insensitive) and feeds the result to the
inline wait-time computation, here factored out as `computeWait`. -/

/-- Attempt to match `after\s+([\d.]+)\s+minutes?` at the head of `l`,
returning the captured digit/period group. -/
def matchWaitAt (l : List Char) : Option (List Char) :=
  match stripCI ("after".toList) l with
  | none => none
  | some l1 =>
    if (l1.takeWhile isWs).isEmpty then none
    else
      let l2 := l1.dropWhile isWs
      let grp := l2.takeWhile (fun c => c.isDigit || c = '.')
      if grp.isEmpty then none
      else
        let l3 := l2.dropWhile (fun c => c.isDigit || c = '.')
        if (l3.takeWhile isWs).isEmpty then none
        else
          let l4 := l3.dropWhile isWs
          match stripCI ("minute".toList) l4 with
          | none => none
          | some _ => some grp

/-- `re.search` for the wait-time pattern: leftmost match wins. -/
def searchWait : List Char → Option (List Char)
  | [] => none
  | c :: rest =>
    match matchWaitAt (c :: rest) with
    | some g => some g
    | none => searchWait rest

/-- Minutes value parsed from a 429 body message (`wait_minutes` in the
source); `none` when the pattern is absent or `float()` fails. -/
def parseWaitMinutes (msg : List Char) : Option ℚ := (searchWait msg).bind pyFloat

/-- Python truthiness of the `wait_minutes` variable (`None` and `0.0` are
falsy). -/
def minutesTruthy : Option ℚ → Bool
  | none => false
  | some m => decide (m ≠ 0)

/-- Python's `retry_after and retry_after.isdigit()`. -/
def retryAfterUsable : Option (List Char) → Bool
  | none => false
  | some s => !s.isEmpty && s.all Char.isDigit

/-- Wait-time computation of `fetch_submission_details` (lines 87–97):
server-message minutes (when truthy) beat the Retry-After header, which
beats the exponential fallback.  `j25` is the sampled `randint(2,5)` and
`j515` the sampled `randint(5,15)`. -/
def computeWait (waitMinutes : Option ℚ) (retryAfter : Option (List Char))
    (attempt base j25 j515 : ℕ) : ℤ :=
  if minutesTruthy waitMinutes then pyInt (waitMinutes.getD 0 * 60) + 5
  else if retryAfterUsable retryAfter then (natOfDigits (retryAfter.getD []) : ℤ) + (j25 : ℤ)
  else ((attempt : ℤ) + 1) * (base : ℤ) + (j515 : ℤ)

/-! ## Rate-limited request executor (`api_client.py`, `fetch_submission_details`)

Each attempt's HTTP outcome is supplied by `resp` (indexed by attempt
number) and the per-attempt random jitters by `jit`.  The function returns
the result together with the list of `time.sleep` durations performed and
the number of request attempts made. -/

/-- The relevant content of a `requests` HTTP error response. -/
structure HttpErrorInfo where
  status : ℕ
  retryAfter : Option (List Char)
  message : List Char
deriving DecidableEq, Repr

/-- Outcome of one HTTP request attempt. -/
inductive ReqOutcome (α : Type) where
  | ok : α → ReqOutcome α
  | httpError : HttpErrorInfo → ReqOutcome α
  | timeout : ReqOutcome α
deriving DecidableEq, Repr

/-- Result of the retrying detail fetch: success, a re-raised non-429 HTTP
error, or the terminal exception carrying the attempt identifier and the
configured retry count. -/
inductive FetchResult (α : Type) where
  | success : α → FetchResult α
  | raised : HttpErrorInfo → FetchResult α
  | exhausted : String → ℕ → FetchResult α
deriving DecidableEq, Repr

/-- The retry loop of `fetch_submission_details` (lines 37–109): argument
`i` is the current attempt index, the second argument the remaining
attempts.  On 429 the backoff wait is computed and slept (also on the final
attempt, as in the source); on timeout a fixed 5 s is slept; any other HTTP
error is re-raised at once. -/
def fetchGo {α : Type} (resp : ℕ → ReqOutcome α) (jit : ℕ → ℕ × ℕ)
    (base : ℕ) (aid : String) (maxR : ℕ) : ℕ → ℕ → FetchResult α × List ℤ × ℕ
  | _, 0 => (.exhausted aid maxR, [], 0)
  | i, r + 1 =>
    match resp i with
    | .ok v => (.success v, [], 1)
    | .httpError e =>
      if e.status = 429 then
        let w := computeWait (parseWaitMinutes e.message) e.retryAfter i base (jit i).1 (jit i).2
        let o := fetchGo resp jit base aid maxR (i + 1) r
        (o.1, w :: o.2.1, o.2.2 + 1)
      else (.raised e, [], 1)
    | .timeout =>
      let o := fetchGo resp jit base aid maxR (i + 1) r
      (o.1, (5 : ℤ) :: o.2.1, o.2.2 + 1)

/-- `fetch_submission_details`: run the retry loop from attempt 0 with the
configured `MAX_RETRIES` budget `maxR`. -/
def fetch_submission_details {α : Type} (resp : ℕ → ReqOutcome α) (jit : ℕ → ℕ × ℕ)
    (base maxR : ℕ) (aid : String) : FetchResult α × List ℤ × ℕ :=
  fetchGo resp jit base aid maxR 0 maxR

/-- An attempt outcome that the executor retries after: HTTP 429 or timeout. -/
def retryableB {α : Type} : ReqOutcome α → Bool
  | .timeout => true
  | .httpError e => e.status == 429
  | .ok _ => false

/-! ## Availability prober (`api_client.py`, `test_api_availability`)

One listing call, then — only when the listing is nonempty — one direct
(unretried) detail request for the first item.  `listing` is the listing
call's outcome, `detail` the outcome the detail request would have.  The
result is the Python return triple together with the number of listing
calls and detail calls performed. -/

/-- The Python triple `(success, error_message, wait_minutes)`. -/
structure ProbeResult where
  ok : Bool
  errorMsg : Option String
  waitMinutes : Option ℚ
deriving DecidableEq, Repr

/-- Model of Python's `str(e)` on a non-429 HTTP error. -/
def errStr (e : HttpErrorInfo) : String := "HTTPError " ++ toString e.status

/-- `test_api_availability` (lines 112–186). -/
def test_api_availability {α β : Type} (listing : ReqOutcome (List α))
    (detail : ReqOutcome β) : ProbeResult × ℕ × ℕ :=
  match listing with
  | .ok [] => (⟨true, none, none⟩, 1, 0)
  | .ok (_ :: _) =>
    (match detail with
     | .ok _ => (⟨true, none, none⟩, 1, 1)
     | .httpError e =>
       if e.status = 429 then (⟨false, some "rate_limited", parseWaitMinutes e.message⟩, 1, 1)
       else (⟨false, some (errStr e), none⟩, 1, 1)
     | .timeout => (⟨false, some "timeout", none⟩, 1, 1))
  | .httpError e =>
    if e.status = 429 then (⟨false, some "rate_limited", parseWaitMinutes e.message⟩, 1, 0)
    else (⟨false, some (errStr e), none⟩, 1, 0)
  | .timeout => (⟨false, some "timeout", none⟩, 1, 0)

/-! ## Grade submission (`submitter.py`, `submit_marks_and_feedback`)

A single `requests.post`; every failure (HTTP error of any status,
timeout) is caught and turned into `(False, None)`.  The payload assembly
is pure data plumbing and does not influence control flow.  Returned:
the Python pair, the number of request attempts, and the sleeps performed. -/

/-- `submit_marks_and_feedback` (lines 9–69). -/
def submit_marks_and_feedback {α : Type} (outcome : ReqOutcome α) :
    (Bool × Option α) × ℕ × List ℤ :=
  match outcome with
  | .ok v => ((true, some v), 1, [])
  | .httpError _ => ((false, none), 1, [])
  | .timeout => ((false, none), 1, [])

/-! ## Reviewer: feedback truncation and marks parsing (`reviewer.py`,
`review_assignment`, lines 156–209) -/

/-- The structural marker separating narrative feedback from the score. -/
def scoreMarker : List Char := "=== SCORE ===".toList

/-- The 800-character truncation step of `review_assignment`
(lines 162–184), applied to the raw model output. -/
def truncate_review_text (rt : List Char) : List Char :=
  if rt.length > 800 then
    if containsSub scoreMarker rt then
      let reviewPart0 := pyStrip (pySplit0 scoreMarker rt)
      let scorePart := scoreMarker ++ pySplit1 scoreMarker rt
      let reviewPart :=
        if reviewPart0.length > 600 then rsplitDotHead (reviewPart0.take 600) ++ ['.']
        else reviewPart0
      let rt2 := reviewPart ++ ('\n' :: '\n' :: []) ++ scorePart
      if rt2.length > 800 then rsplitDotHead (rt2.take 800) ++ ['.'] else rt2
    else rsplitDotHead (rt.take 800) ++ ['.']
  else rt

/-- Attempt to match `MARKS:\s*(\d+)` (case-insensitive) at the head of `l`. -/
def matchMarksAt (l : List Char) : Option ℕ :=
  match stripCI ("marks:".toList) l with
  | none => none
  | some l1 =>
    let ds := (l1.dropWhile isWs).takeWhile Char.isDigit
    if ds.isEmpty then none else some (natOfDigits ds)

/-- `re.search` for the `MARKS:` line. -/
def searchMarks : List Char → Option ℕ
  | [] => none
  | c :: rest =>
    match matchMarksAt (c :: rest) with
    | some n => some n
    | none => searchMarks rest

/-- Attempt to match the fallback pattern `(\d+)\s*/\s*<total>` at the head
of `l`. -/
def matchFracAt (total : ℕ) (l : List Char) : Option ℕ :=
  let ds := l.takeWhile Char.isDigit
  if ds.isEmpty then none
  else
    match (l.dropWhile Char.isDigit).dropWhile isWs with
    | '/' :: l4 =>
      if (toString total).toList.isPrefixOf (l4.dropWhile isWs) then some (natOfDigits ds)
      else none
    | _ => none

/-- `re.search` for the fallback `N/total` pattern. -/
def searchFrac (total : ℕ) : List Char → Option ℕ
  | [] => none
  | c :: rest =>
    match matchFracAt total (c :: rest) with
    | some n => some n
    | none => searchFrac total rest

/-- Marks extraction of `review_assignment` (lines 186–207): the `MARKS:`
value clamped to `[0, total]`; else the raw numerator of an `N/total`
occurrence; else the default `int(total * 0.7)`. -/
def parse_suggested_marks (reviewText : List Char) (total : ℕ) : ℤ :=
  match searchMarks reviewText with
  | some n => min (max (n : ℤ) 0) (total : ℤ)
  | none =>
    match searchFrac total reviewText with
    | some n => (n : ℤ)
    | none => pyInt ((total : ℚ) * (7 / 10))

/-! ## Orchestrator (`auto_review.py`, `process_submission_with_tracking`
and `main`)

`ItemEnv` packages the external interactions one submission can have:
whether the detail fetch and download succeed, the downloaded file list,
the review outcome, and whether a grade submission call would succeed.
`process_submission_with_tracking` is modelled at `auto_submit=True`,
as invoked by `main`. -/

/-- The dictionary returned by `review_assignment` (the fields the
orchestrator reads). -/
structure ReviewResult where
  is_valid_format : Bool
  can_review : Bool
  suggested_marks : Option ℕ
  feedback : List Char
  retry_count : ℕ
deriving DecidableEq, Repr

/-- External circumstances of processing one submission. -/
structure ItemEnv where
  studentName : String
  assignmentName : String
  fetchOk : Bool
  files : List (List Char)
  review : ReviewResult
  submitOk : Bool
deriving DecidableEq, Repr

/-- Side effects of processing one submission: the marks submitted to the
LMS (`none` when no submit call is made) and whether the downloaded files
were cleaned up. -/
structure ItemEffects where
  submitted : Option ℕ
  deletedFiles : Bool
deriving DecidableEq, Repr

/-- The marker `process_submission_with_tracking` looks for in feedback. -/
def aiFailMarker : List Char := "AI_REVIEW_FAILED".toList

/-- `process_submission_with_tracking` (lines 87–272) at `auto_submit=True`:
returns the Python pair `(success, result_type)` and the submission /
cleanup effects. -/
def process_submission_with_tracking (env : ItemEnv) : (Bool × String) × ItemEffects :=
  if env.fetchOk = false then ((false, "error"), ⟨none, false⟩)
  else if env.files = [] then ((true, "no_files"), ⟨some 0, false⟩)
  else
    let r := env.review
    let ext := (splitextExt (env.files.headD [])).map Char.toLower
    let rt :=
      if r.is_valid_format = false then
        if ext = ".doc".toList ∨ ext = ".docx".toList then "doc_rejected"
        else if ext = ".zip".toList then "zip_rejected"
        else "invalid_format"
      else if r.can_review = true then "pdf_graded"
      else "unknown"
    if r.is_valid_format = false then
      if containsSub aiFailMarker r.feedback then ((false, "ai_failure"), ⟨none, false⟩)
      else ((true, rt), ⟨some 0, env.submitOk⟩)
    else if r.can_review = true then
      if env.submitOk then ((true, rt), ⟨some (r.suggested_marks.getD 0), true⟩)
      else ((false, rt), ⟨some (r.suggested_marks.getD 0), false⟩)
    else ((true, rt), ⟨none, false⟩)

/-- One entry of `failed_attempts` in `main` (lines 565–569); the reason
string is fixed in the source. -/
structure FailEntry where
  student : String
  assignment : String
  reason : String
deriving DecidableEq, Repr

/-- Aggregate outcome of `main`'s processing loop. -/
structure RunOutcome where
  log : List (ItemEnv × ((Bool × String) × ItemEffects))
  aborted : Bool
  failed : List FailEntry
  processed : ℕ
  failedCount : ℕ
deriving DecidableEq, Repr

/-- The processing loop of `main` (lines 525–610): each pending item is
processed in order; on the first item whose processing reports failure the
loop records a failure entry and breaks. -/
def mainLoop : List ItemEnv → RunOutcome
  | [] => ⟨[], false, [], 0, 0⟩
  | env :: rest =>
    let pr := process_submission_with_tracking env
    if pr.1.1 = true then
      let o := mainLoop rest
      ⟨(env, pr) :: o.log, o.aborted, o.failed, o.processed + 1, o.failedCount⟩
    else
      ⟨[(env, pr)], true,
        [⟨env.studentName, env.assignmentName, "AI review failed after max retries"⟩], 0, 1⟩

/-! ## Countdown wait (`utils.py`, `wait_with_countdown`) -/

/-- Python's `range(start, 0, -step)` for positive `step`: the values
`start, start-step, …` while positive (`⌈start/step⌉` of them). -/
def pyRangeDown (start step : ℕ) : List ℕ :=
  (List.range ((start + step - 1) / step)).map (fun k => start - step * k)

/-- The sleep durations performed by `wait_with_countdown(minutes)`
(lines 28–41): one 60-second sleep per iteration of
`range(minutes * 60, 0, -60)`. -/
def wait_with_countdown_sleeps (minutes : ℕ) : List ℕ :=
  (pyRangeDown (minutes * 60) 60).map (fun _ => 60)

/-! ## General lemmas -/

lemma length_dropWhile_le (p : Char → Bool) (l : List Char) :
    (l.dropWhile p).length ≤ l.length := by
  induction l with
  | nil => simp
  | cons x rest ih =>
    rw [List.dropWhile]
    cases p x
    · simp
    · simp only [List.length_cons]
      exact Nat.le_succ_of_le ih

lemma rsplitDotHead_length_le (l : List Char) : (rsplitDotHead l).length ≤ l.length := by
  rw [rsplitDotHead]
  split
  · calc (((l.reverse.dropWhile (fun c => !(c = '.'))).drop 1).reverse).length
        = (l.reverse.dropWhile (fun c => !(c = '.'))).length - 1 := by
          simp [List.length_drop]
      _ ≤ l.reverse.length := by
          have := length_dropWhile_le (fun c => !(c = '.')) l.reverse
          omega
      _ = l.length := by simp
  · exact le_refl _

lemma rsplitDotHead_of_not_mem (l : List Char) (h : '.' ∉ l) : rsplitDotHead l = l := by
  rw [rsplitDotHead, if_neg h]

lemma findSplit_eq_none (c : Char) (cs l : List Char) (h : c ∉ l) :
    findSplit (c :: cs) l = none := by
  induction l with
  | nil => rfl
  | cons x rest ih =>
    rw [findSplit]
    have hx : ¬ c = x := fun e => h (e ▸ List.mem_cons_self x rest)
    have hpre : ((c :: cs).isPrefixOf (x :: rest)) = false := by
      simp only [List.isPrefixOf, Bool.and_eq_false_iff, beq_eq_false_iff_ne, ne_eq]
      exact Or.inl hx
    rw [if_neg (by rw [hpre]; simp)]
    rw [ih (fun hm => h (List.mem_cons_of_mem _ hm))]

lemma findSplit_append_first (c : Char) (cs a b : List Char) (ha : c ∉ a) :
    findSplit (c :: cs) (a ++ ((c :: cs) ++ b)) = some (a, b) := by
  induction a with
  | nil =>
    rw [List.nil_append]
    have hc : (c :: cs) ++ b = c :: (cs ++ b) := rfl
    rw [hc, findSplit]
    rw [if_pos (List.isPrefixOf_iff_prefix.mpr (by exact List.prefix_append _ _))]
    simp [List.drop_left]
  | cons x xs ih =>
    have hx : ¬ c = x := fun e => ha (e ▸ List.mem_cons_self x xs)
    rw [List.cons_append, findSplit]
    have hpre : ((c :: cs).isPrefixOf (x :: (xs ++ ((c :: cs) ++ b)))) = false := by
      simp only [List.isPrefixOf, Bool.and_eq_false_iff, beq_eq_false_iff_ne, ne_eq]
      exact Or.inl hx
    rw [if_neg (by rw [hpre]; simp)]
    rw [ih (fun hm => ha (List.mem_cons_of_mem _ hm))]

lemma dropWhile_replicate_append (p : Char → Bool) (a : Char) (n : ℕ) (t : List Char)
    (h : p a = true) :
    List.dropWhile p (List.replicate n a ++ t) = List.dropWhile p t := by
  induction n with
  | zero => simp
  | succ m ih => simp [List.replicate_succ, List.dropWhile, h, ih]

lemma trunc_chunk_length_le (l : List Char) :
    (rsplitDotHead (l.take 800) ++ ['.']).length ≤ 801 := by
  rw [List.length_append]
  have h1 := rsplitDotHead_length_le (l.take 800)
  have h2 : (l.take 800).length ≤ 800 := by
    rw [List.length_take]
    exact min_le_left _ _
  simp only [List.length_cons, List.length_nil]
  omega

lemma ite_trunc_le (l : List Char) :
    (if l.length > 800 then rsplitDotHead (l.take 800) ++ ['.'] else l).length ≤ 801 := by
  split
  · exact trunc_chunk_length_le _
  · next h =>
    have := Nat.le_of_not_lt (by simpa using h)
    omega

/-- C7 (amended): the feedback text produced by the reviewer's truncation
step is at most 801 characters — the 800-character budget can be exceeded
by exactly the one period appended when no sentence boundary exists in the
truncation window; and preservation of the `=== SCORE ===` marker is not
guaranteed. -/
theorem C7_amended_truncation_bound (rt : List Char) :
    (truncate_review_text rt).length ≤ 801 := by
  rw [truncate_review_text]
  split
  · split
    · exact ite_trunc_le _
    · exact trunc_chunk_length_le _
  · next h1 =>
    have := Nat.le_of_not_lt (by simpa using h1)
    omega

lemma not_mem_replicate (c a : Char) (n : ℕ) (h : ¬ c = a) : c ∉ List.replicate n a := by
  intro hm
  rw [List.mem_replicate] at hm
  exact h hm.2

lemma c7_markerL : scoreMarker = '=' :: "== SCORE ===".toList := by decide

lemma c7_findSplit :
    findSplit scoreMarker ("A.".toList ++ (scoreMarker ++ List.replicate 820 'b'))
      = some ("A.".toList, List.replicate 820 'b') := by
  rw [c7_markerL]
  exact findSplit_append_first _ _ _ _ (by decide)

lemma c7_len801 : (truncate_review_text (List.replicate 900 'a')).length = 801 := by
  have hno : containsSub scoreMarker (List.replicate 900 'a') = false := by
    rw [containsSub, c7_markerL]
    rw [findSplit_eq_none _ _ _ (not_mem_replicate _ _ _ (by decide))]
    rfl
  rw [truncate_review_text]
  rw [if_pos (show (List.replicate 900 'a').length > 800 from by
    rw [List.length_replicate]; norm_num)]
  rw [if_neg (by rw [hno]; simp)]
  rw [List.take_replicate]
  rw [rsplitDotHead_of_not_mem _ (not_mem_replicate _ _ _ (by decide))]
  simp only [List.length_append, List.length_replicate, List.length_cons, List.length_nil]
  norm_num

lemma c7_marker_lost :
    containsSub scoreMarker
      (truncate_review_text ("A.".toList ++ (scoreMarker ++ List.replicate 820 'b'))) = false := by
  have hnone : findSplit scoreMarker (List.replicate 820 'b') = none := by
    rw [c7_markerL]; exact findSplit_eq_none _ _ _ (not_mem_replicate _ _ _ (by decide))
  have hlen2 : ("A.".toList).length = 2 := by decide
  have hlen13 : scoreMarker.length = 13 := by decide
  rw [truncate_review_text]
  rw [if_pos (show ("A.".toList ++ (scoreMarker ++ List.replicate 820 'b')).length > 800 from by
    simp only [List.length_append, hlen2, hlen13, List.length_replicate]; norm_num)]
  rw [if_pos (by rw [containsSub, c7_findSplit]; rfl)]
  simp only [pySplit0, pySplit1, c7_findSplit, hnone]
  rw [show pyStrip ("A.".toList) = "A.".toList from by decide]
  simp only [hlen2]
  rw [if_neg (show ¬((2:ℕ) > 600) from by norm_num)]
  have hassoc : ("A.".toList) ++ ('\n' :: '\n' :: []) ++ (scoreMarker ++ List.replicate 820 'b')
      = ("A.".toList ++ '\n' :: '\n' :: scoreMarker) ++ List.replicate 820 'b' := by
    simp only [List.append_assoc, List.cons_append, List.nil_append]
  rw [hassoc]
  have hu17 : ("A.".toList ++ '\n' :: '\n' :: scoreMarker).length = 17 := by decide
  have hlenrt2 : (("A.".toList ++ '\n' :: '\n' :: scoreMarker)
      ++ List.replicate 820 'b').length = 837 := by
    simp only [List.length_append, List.length_cons, List.length_replicate, hlen2, hlen13]
  rw [hlenrt2]
  rw [if_pos (show (837:ℕ) > 800 from by norm_num)]
  rw [show (800 : ℕ) = ("A.".toList ++ '\n' :: '\n' :: scoreMarker).length + 783 from by
    rw [hu17]]
  rw [List.take_append]
  rw [List.take_replicate]
  rw [show (783 : ℕ) ⊓ 820 = 783 from by norm_num]
  rw [rsplitDotHead, if_pos (List.mem_append_left _ (by decide))]
  rw [List.reverse_append, List.reverse_replicate]
  rw [dropWhile_replicate_append _ _ _ _ (by decide)]
  rw [show List.dropWhile (fun c => !(c = '.'))
        (("A.".toList ++ '\n' :: '\n' :: scoreMarker).reverse) = ['.', 'A'] from by decide]
  decide

/-- C7 counterexample: a 900-character output with no period truncates to
801 characters (more than the claimed 800-character bound), and an
over-long output containing the `=== SCORE ===` marker whose tail has no
period loses the marker under truncation. -/
theorem C7_counterexample :
    (truncate_review_text (List.replicate 900 'a')).length = 801
  ∧ containsSub scoreMarker ("A.".toList ++ (scoreMarker ++ List.replicate 820 'b')) = true
  ∧ 800 < ("A.".toList ++ (scoreMarker ++ List.replicate 820 'b')).length
  ∧ containsSub scoreMarker
      (truncate_review_text ("A.".toList ++ (scoreMarker ++ List.replicate 820 'b'))) = false := by
  refine ⟨c7_len801, ?_, ?_, c7_marker_lost⟩
  · rw [containsSub, c7_findSplit]; rfl
  · simp only [List.length_append, List.length_replicate,
      show ("A.".toList).length = 2 from by decide,
      show scoreMarker.length = 13 from by decide]
    norm_num
lemma pyFloat_282 : pyFloat ['2', '.', '8', '2'] = some ((141 : ℚ) / 50) := by
  have ht : (['2', '.', '8', '2'].takeWhile (fun c => !(c = '.'))) = ['2'] := by decide
  have hd : ((['2', '.', '8', '2'].dropWhile (fun c => !(c = '.'))).drop 1) = ['8', '2'] := by decide
  simp only [pyFloat, ht, hd]
  rw [if_neg (by decide), if_pos (by decide), if_neg (by decide)]
  have h1 : natOfDigits ['2'] = 2 := by decide
  have h2 : natOfDigits ['8', '2'] = 82 := by decide
  rw [h1, h2]
  norm_num

lemma parseWaitMinutes_282 :
    parseWaitMinutes ("Try after 2.82 minutes".toList) = some ((141 : ℚ) / 50) := by
  rw [parseWaitMinutes,
    show searchWait ("Try after 2.82 minutes".toList) = some ['2', '.', '8', '2'] from by decide]
  simpa using pyFloat_282

lemma pyInt_282_times_60 : pyInt ((141 / 50 : ℚ) * 60) = 169 := by
  rw [pyInt, if_pos (by norm_num)]
  norm_num [Int.floor_eq_iff]

lemma computeWait_minutes (m : ℚ) (hm : m ≠ 0) (ra : Option (List Char))
    (attempt base j25 j515 : ℕ) :
    computeWait (some m) ra attempt base j25 j515 = pyInt (m * 60) + 5 := by
  rw [computeWait]
  rw [if_pos (by simp [minutesTruthy]; exact hm)]
  simp

/-- C1 (amended): whenever the 429 body message parses to a minute value
`m` and `m` is nonzero (Python-truthy), the computed backoff wait is
exactly `int(m * 60) + 5` seconds, regardless of the Retry-After header,
attempt index, base delay or jitter — the server-message hint wins.  A
parsed value of exactly `0` is, however, falsy and is ignored (see the
counterexample). -/
theorem C1_amended (msg : List Char) (m : ℚ)
    (hp : parseWaitMinutes msg = some m) (hm : 0 < m)
    (ra : Option (List Char)) (attempt base j25 j515 : ℕ) :
    computeWait (parseWaitMinutes msg) ra attempt base j25 j515 = pyInt (m * 60) + 5 := by
  rw [hp]
  exact computeWait_minutes m (ne_of_gt hm) ra attempt base j25 j515

/-- C1 witness: the message `Try after 2.82 minutes` parses to 2.82 and
yields a 174-second wait even with a Retry-After header present. -/
theorem C1_witness :
    parseWaitMinutes ("Try after 2.82 minutes".toList) = some ((141 : ℚ) / 50)
  ∧ 0 < ((141 : ℚ) / 50)
  ∧ computeWait (parseWaitMinutes ("Try after 2.82 minutes".toList))
      (some ("60".toList)) 0 10 2 5 = 174 := by
  refine ⟨parseWaitMinutes_282, by norm_num, ?_⟩
  rw [C1_amended _ _ parseWaitMinutes_282 (by norm_num) _ _ _ _ _]
  rw [pyInt_282_times_60]
  norm_num

/-- C1 counterexample: the message `Try after 0 minutes` matches the wait
pattern with `m = 0`, yet the computed wait is the exponential fallback
(15 s) or the Retry-After value (32 s) — not `floor(0 * 60) + 5 = 5` —
because Python's truthiness test discards a parsed `0.0`. -/
theorem C1_counterexample :
    parseWaitMinutes ("Try after 0 minutes".toList) = some 0
  ∧ computeWait (parseWaitMinutes ("Try after 0 minutes".toList)) none 0 10 2 5 = 15
  ∧ computeWait (parseWaitMinutes ("Try after 0 minutes".toList)) (some ("30".toList)) 0 10 2 5 = 32
  ∧ pyInt ((0 : ℚ) * 60) + 5 = 5 := by
  have hp : parseWaitMinutes ("Try after 0 minutes".toList) = some 0 := by
    rw [parseWaitMinutes,
      show searchWait ("Try after 0 minutes".toList) = some ['0'] from by decide]
    simp only [Option.bind, pyFloat]
    rw [if_pos (by decide), if_neg (by decide)]
    norm_num [show natOfDigits ['0'] = 0 from by decide]
  have htr : minutesTruthy (some (0 : ℚ)) = false := by simp [minutesTruthy]
  refine ⟨hp, ?_, ?_, ?_⟩
  · rw [hp, computeWait, htr]
    simp [retryAfterUsable]
  · rw [hp, computeWait, htr]
    simp only [Bool.false_eq_true, if_false]
    rw [if_pos (by decide)]
    norm_num [show natOfDigits ['3', '0'] = 30 from by decide]
  · simp [pyInt]

section Executor

variable {α : Type} (resp : ℕ → ReqOutcome α) (jit : ℕ → ℕ × ℕ) (base : ℕ) (aid : String) (maxR : ℕ)

lemma fetchGo_count_le :
    ∀ r i, (fetchGo resp jit base aid maxR i r).2.2 ≤ r := by
  intro r
  induction r with
  | zero => intro i; rw [fetchGo]
  | succ n ih =>
    intro i
    rw [fetchGo]
    cases hr : resp i with
    | ok v => simp
    | httpError e =>
      by_cases h : e.status = 429
      · have := ih (i + 1)
        simp only [h, if_true]
        simp
        omega
      · simp [h]
    | timeout =>
      have := ih (i + 1)
      simp
      omega

lemma fetchGo_retried_retryable :
    ∀ r i j, j + 1 < (fetchGo resp jit base aid maxR i r).2.2 →
      retryableB (resp (i + j)) = true := by
  intro r
  induction r with
  | zero => intro i j hj; rw [fetchGo] at hj; simp at hj
  | succ n ih =>
    intro i j hj
    rw [fetchGo] at hj
    cases hr : resp i with
    | ok v => rw [hr] at hj; simp at hj
    | httpError e =>
      rw [hr] at hj
      by_cases h : e.status = 429
      · simp only [h, if_true] at hj
        simp at hj
        cases j with
        | zero => simp [retryableB, hr, h]
        | succ k =>
          have : k + 1 < (fetchGo resp jit base aid maxR (i + 1) n).2.2 := by omega
          have hk := ih (i + 1) k this
          have : i + 1 + k = i + (k + 1) := by omega
          rw [this] at hk
          exact hk
      · simp [h] at hj
    | timeout =>
      rw [hr] at hj
      simp at hj
      cases j with
      | zero => simp [retryableB, hr]
      | succ k =>
        have : k + 1 < (fetchGo resp jit base aid maxR (i + 1) n).2.2 := by omega
        have hk := ih (i + 1) k this
        have : i + 1 + k = i + (k + 1) := by omega
        rw [this] at hk
        exact hk

lemma fetchGo_raised :
    ∀ r i e, (fetchGo resp jit base aid maxR i r).1 = .raised e → ¬ e.status = 429 := by
  intro r
  induction r with
  | zero => intro i e he; rw [fetchGo] at he; simp at he
  | succ n ih =>
    intro i e he
    rw [fetchGo] at he
    cases hr : resp i with
    | ok v => rw [hr] at he; simp at he
    | httpError e2 =>
      rw [hr] at he
      by_cases h : e2.status = 429
      · simp only [h, if_true] at he
        exact ih (i + 1) e he
      · simp [h] at he
        rw [← he]
        exact h
    | timeout =>
      rw [hr] at he
      simp at he
      exact ih (i + 1) e he

lemma fetchGo_exhausted :
    ∀ r i, (∀ j, j < r → retryableB (resp (i + j)) = true) →
      (fetchGo resp jit base aid maxR i r).1 = .exhausted aid maxR := by
  intro r
  induction r with
  | zero => intro i _; rw [fetchGo]
  | succ n ih =>
    intro i hall
    rw [fetchGo]
    have h0 : retryableB (resp i) = true := by
      have := hall 0 (by omega)
      simpa using this
    cases hr : resp i with
    | ok v => rw [hr] at h0; simp [retryableB] at h0
    | httpError e =>
      rw [hr] at h0
      have h429 : e.status = 429 := by
        simpa [retryableB] using h0
      simp only [h429, if_true]
      refine ih (i + 1) (fun j hj => ?_)
      have hj2 := hall (j + 1) (by omega)
      have heq : i + (j + 1) = i + 1 + j := by omega
      rw [heq] at hj2
      exact hj2
    | timeout =>
      refine ih (i + 1) (fun j hj => ?_)
      have hj2 := hall (j + 1) (by omega)
      have heq : i + (j + 1) = i + 1 + j := by omega
      rw [heq] at hj2
      exact hj2

end Executor

/-- C2: for every script of attempt outcomes, the detail-fetch executor
makes at most `maxR` (MAX_RETRIES) request attempts; an attempt is
followed by a further attempt only when it was HTTP 429 or a timeout; a
non-429 HTTP error is re-raised immediately (never retried); and when
every attempt in the budget is retryable the loop ends with the terminal
error naming the attempt identifier and the attempt count. -/
theorem C2_executor {α : Type} (resp : ℕ → ReqOutcome α) (jit : ℕ → ℕ × ℕ)
    (base maxR : ℕ) (aid : String) :
    (fetch_submission_details resp jit base maxR aid).2.2 ≤ maxR
  ∧ (∀ j, j + 1 < (fetch_submission_details resp jit base maxR aid).2.2 →
      retryableB (resp j) = true)
  ∧ (∀ e, (fetch_submission_details resp jit base maxR aid).1 = .raised e →
      ¬ e.status = 429)
  ∧ ((∀ j, j < maxR → retryableB (resp j) = true) →
      (fetch_submission_details resp jit base maxR aid).1 = .exhausted aid maxR) := by
  refine ⟨?_, ?_, ?_, ?_⟩
  · exact fetchGo_count_le resp jit base aid maxR maxR 0
  · intro j hj
    have := fetchGo_retried_retryable resp jit base aid maxR maxR 0 j hj
    simpa using this
  · intro e he
    exact fetchGo_raised resp jit base aid maxR maxR 0 e he
  · intro hall
    apply fetchGo_exhausted resp jit base aid maxR maxR 0
    intro j hj
    simpa using hall j hj

/-- C2 witness: with a script of nothing but timeouts and a budget of 2,
the executor raises the terminal error naming the identifier and count,
after at most 2 attempts. -/
theorem C2_witness :
    (fetch_submission_details (fun _ => (ReqOutcome.timeout : ReqOutcome Unit))
        (fun _ => (2, 5)) 10 2 "A7").1 = FetchResult.exhausted "A7" 2
  ∧ (fetch_submission_details (fun _ => (ReqOutcome.timeout : ReqOutcome Unit))
        (fun _ => (2, 5)) 10 2 "A7").2.2 ≤ 2 := by
  have h := C2_executor (fun _ => (ReqOutcome.timeout : ReqOutcome Unit)) (fun _ => (2, 5)) 10 2 "A7"
  exact ⟨h.2.2.2 (fun j hj => rfl), h.1⟩

/-- C3 counterexample: a grade-submission call that fails with HTTP 429
(even one carrying a Retry-After header and a parsable wait message)
returns `(False, None)` after exactly one request attempt with no backoff
sleep — it is not classified, not slept on, and not retried. -/
theorem C3_counterexample :
    submit_marks_and_feedback
        (ReqOutcome.httpError (α := Unit) ⟨429, some ("60".toList), "Try after 2.82 minutes".toList⟩)
      = ((false, none), 1, ([] : List ℤ)) := rfl

/-- C3 (amended): the grade-submission leg does not go through the
rate-limit-aware retry executor: `submit_marks_and_feedback` makes exactly
one request attempt, performs no sleep, and maps every failure outcome —
HTTP 429 included — to `(False, None)` immediately; only the detail-fetch
leg retries. -/
theorem C3_amended {α : Type} (o : ReqOutcome α) :
    (submit_marks_and_feedback o).2.1 = 1
  ∧ (submit_marks_and_feedback o).2.2 = []
  ∧ (submit_marks_and_feedback o).1
      = (match o with | .ok v => (true, some v) | _ => (false, none)) := by
  cases o <;> simp [submit_marks_and_feedback]

/-- Attempt script for the executor: one 429 carrying the 2.82-minute
hint, then success. -/
def respC9 : ℕ → ReqOutcome Unit :=
  fun i => if i = 0 then .httpError ⟨429, none, "Try after 2.82 minutes".toList⟩ else .ok ()

lemma computeWait_282 :
    computeWait (parseWaitMinutes ("Try after 2.82 minutes".toList)) none 0 10 2 5 = 174 := by
  rw [parseWaitMinutes_282, computeWait_minutes _ (by norm_num) _ _ _ _ _, pyInt_282_times_60]
  norm_num

lemma fetchC9_sleeps :
    (fetch_submission_details respC9 (fun _ => (2, 5)) 10 3 "A1").2.1 = [(174 : ℤ)] := by
  rw [fetch_submission_details]
  rw [show (3 : ℕ) = 2 + 1 from rfl, fetchGo]
  rw [show respC9 0 = .httpError ⟨429, none, "Try after 2.82 minutes".toList⟩ from rfl]
  simp only []
  simp only [if_true]
  have htail : (fetchGo respC9 (fun x => ((2 : ℕ), (5 : ℕ))) 10 "A1" (2 + 1) (0 + 1) 2).2.1
      = [] := rfl
  rw [htail, computeWait_282]

/-- C9 counterexample: the executor's backoff wait for a 429 carrying the
2.82-minute hint is performed as one single `time.sleep` call of the full
174 seconds — a single unbroken multi-minute sleep, not a sequence of
bounded increments. -/
theorem C9_counterexample :
    (fetch_submission_details respC9 (fun _ => (2, 5)) 10 3 "A1").2.1 = [(174 : ℤ)]
  ∧ (60 : ℤ) < 174 :=
  ⟨fetchC9_sleeps, by norm_num⟩

/-- C9 (amended): only `wait_with_countdown` sleeps in bounded (60-second)
increments; the executor's rate-limit backoff is executed as a single
uninterrupted sleep of the full computed duration (174 s in the sample
script). -/
theorem C9_amended (minutes : ℕ) :
    (∀ x ∈ wait_with_countdown_sleeps minutes, x = 60)
  ∧ (fetch_submission_details respC9 (fun _ => (2, 5)) 10 3 "A1").2.1 = [(174 : ℤ)] := by
  refine ⟨?_, fetchC9_sleeps⟩
  intro x hx
  rw [wait_with_countdown_sleeps] at hx
  rcases List.mem_map.mp hx with ⟨a, _, ha⟩
  exact ha.symm

/-- C9 witness: a 2-minute countdown sleeps twice for 60 seconds each,
while the executor's 2.82-minute backoff is one 174-second sleep. -/
theorem C9_witness :
    wait_with_countdown_sleeps 2 = [60, 60]
  ∧ (fetch_submission_details respC9 (fun _ => (2, 5)) 10 3 "A1").2.1 = [(174 : ℤ)] := by
  refine ⟨?_, (C9_amended 2).2⟩
  decide

lemma pyInt_default_bounds (total : ℕ) :
    0 ≤ pyInt ((total : ℚ) * (7 / 10)) ∧ pyInt ((total : ℚ) * (7 / 10)) ≤ (total : ℤ) := by
  have hq : (0 : ℚ) ≤ (total : ℚ) * (7 / 10) := by positivity
  rw [pyInt, if_pos hq]
  constructor
  · exact Int.le_floor.mpr (by push_cast; positivity)
  · have hle : ((total : ℚ) * (7 / 10)) ≤ (((total : ℤ) : ℚ)) := by
      push_cast
      nlinarith [show (0 : ℚ) ≤ (total : ℚ) from by positivity]
    calc ⌊(total : ℚ) * (7 / 10)⌋ ≤ ⌊(((total : ℤ) : ℚ))⌋ := Int.floor_mono hle
      _ = (total : ℤ) := Int.floor_intCast _

/-- C6 (amended): the extracted score is always nonnegative, and it lies
within `[0, maxScore]` whenever it comes from the `MARKS:` line (clamped)
or from the 70-percent default — but the fallback `N/maxScore` recovery
returns the raw numerator unclamped, which can exceed `maxScore` (see the
counterexample). -/
theorem C6_amended (text : List Char) (total : ℕ) :
    0 ≤ parse_suggested_marks text total
  ∧ (∀ n, searchMarks text = some n → parse_suggested_marks text total ≤ (total : ℤ))
  ∧ (searchMarks text = none → searchFrac total text = none →
      parse_suggested_marks text total ≤ (total : ℤ)) := by
  refine ⟨?_, ?_, ?_⟩
  · rw [parse_suggested_marks]
    cases hm : searchMarks text with
    | some n =>
      simp only []
      have h1 : (0 : ℤ) ≤ max (n : ℤ) 0 := le_max_right _ _
      have h2 : (0 : ℤ) ≤ (total : ℤ) := Int.natCast_nonneg _
      exact le_min h1 h2
    | none =>
      cases hf : searchFrac total text with
      | some k => simp only []; exact Int.natCast_nonneg k
      | none => simp only []; exact (pyInt_default_bounds total).1
  · intro n hn
    rw [parse_suggested_marks, hn]
    exact min_le_right _ _
  · intro hm hf
    rw [parse_suggested_marks, hm, hf]
    exact (pyInt_default_bounds total).2

/-- C6 counterexample: feedback text with no `MARKS:` line but containing
`150/100` yields a score of 150, outside the claimed interval `[0, 100]` —
the fallback path does not clamp. -/
theorem C6_counterexample :
    parse_suggested_marks ("Great. 150/100".toList) 100 = 150
  ∧ (100 : ℤ) < 150 :=
  ⟨by decide, by norm_num⟩

/-- C6 witness: a normal `MARKS: 85` line is parsed, clamped into
`[0, 100]`, and equals 85. -/
theorem C6_witness :
    searchMarks ("MARKS: 85".toList) = some 85
  ∧ 0 ≤ parse_suggested_marks ("MARKS: 85".toList) 100
  ∧ parse_suggested_marks ("MARKS: 85".toList) 100 ≤ (100 : ℤ)
  ∧ parse_suggested_marks ("MARKS: 85".toList) 100 = 85 := by
  have h := C6_amended ("MARKS: 85".toList) 100
  exact ⟨by decide, h.1, h.2.1 85 (by decide), by decide⟩

/-- C8: the availability prober makes exactly one listing call and at most
one detail call — exactly one precisely when the listing returned at least
one item (and then for the first item); it retries neither call; an empty
listing or a successful detail call yields ok; a 429 on either call yields
not-ok with reason `rate_limited` together with the minutes hint parsed
from that response's body message. -/
theorem C8_prober {α β : Type} (listing : ReqOutcome (List α)) (detail : ReqOutcome β) :
    (test_api_availability listing detail).2.1 = 1
  ∧ (test_api_availability listing detail).2.2 ≤ 1
  ∧ ((test_api_availability listing detail).2.2 = 1 ↔ ∃ x xs, listing = .ok (x :: xs))
  ∧ (listing = .ok [] → (test_api_availability listing detail).1 = ⟨true, none, none⟩)
  ∧ (∀ x xs, listing = .ok (x :: xs) → ∀ v, detail = .ok v →
      (test_api_availability listing detail).1 = ⟨true, none, none⟩)
  ∧ (∀ x xs e, listing = .ok (x :: xs) → detail = .httpError e → e.status = 429 →
      (test_api_availability listing detail).1
        = ⟨false, some "rate_limited", parseWaitMinutes e.message⟩)
  ∧ (∀ e, listing = .httpError e → e.status = 429 →
      (test_api_availability listing detail).1
        = ⟨false, some "rate_limited", parseWaitMinutes e.message⟩) := by
  cases listing with
  | ok l =>
    cases l with
    | nil => simp [test_api_availability]
    | cons x xs =>
      cases detail with
      | ok v => simp [test_api_availability]
      | httpError e =>
        by_cases h : e.status = 429 <;>
          simp [test_api_availability, h]
      | timeout => simp [test_api_availability]
  | httpError e =>
    by_cases h : e.status = 429 <;>
      simp [test_api_availability, h]
  | timeout => simp [test_api_availability]

/-- C8 witness: a one-item listing followed by a 429 detail response with
an unparsable body yields `(False, "rate_limited", None)` after one
listing call and one detail call. -/
theorem C8_prober_witness :
    (test_api_availability (ReqOutcome.ok [()])
        (ReqOutcome.httpError (α := Unit) ⟨429, none, "x".toList⟩)).1
      = ⟨false, some "rate_limited", none⟩
  ∧ (test_api_availability (ReqOutcome.ok [()])
        (ReqOutcome.httpError (α := Unit) ⟨429, none, "x".toList⟩)).2.1 = 1
  ∧ (test_api_availability (ReqOutcome.ok [()])
        (ReqOutcome.httpError (α := Unit) ⟨429, none, "x".toList⟩)).2.2 = 1 := by
  have h := C8_prober (ReqOutcome.ok [()]) (ReqOutcome.httpError (α := Unit) ⟨429, none, "x".toList⟩)
  refine ⟨?_, h.1, h.2.2.1.mpr ⟨(), [], rfl⟩⟩
  have := h.2.2.2.2.2.1 () [] ⟨429, none, "x".toList⟩ rfl rfl rfl
  rw [this]
  rw [show parseWaitMinutes ("x".toList) = none from by decide]

lemma mainLoop_cons_success (env : ItemEnv) (rest : List ItemEnv)
    (h : (process_submission_with_tracking env).1.1 = true) :
    mainLoop (env :: rest)
      = ⟨(env, process_submission_with_tracking env) :: (mainLoop rest).log,
          (mainLoop rest).aborted, (mainLoop rest).failed, (mainLoop rest).processed + 1,
          (mainLoop rest).failedCount⟩ := by
  rw [mainLoop]
  simp [h]

lemma mainLoop_cons_failure (env : ItemEnv) (rest : List ItemEnv)
    (h : (process_submission_with_tracking env).1.1 = false) :
    mainLoop (env :: rest)
      = ⟨[(env, process_submission_with_tracking env)], true,
          [⟨env.studentName, env.assignmentName, "AI review failed after max retries"⟩], 0, 1⟩ := by
  rw [mainLoop]
  simp [h]

lemma process_ai_failure (env : ItemEnv) (hf : env.fetchOk = true) (hne : env.files ≠ [])
    (hv : env.review.is_valid_format = false)
    (hm : containsSub aiFailMarker env.review.feedback = true) :
    process_submission_with_tracking env = ((false, "ai_failure"), ⟨none, false⟩) := by
  rw [process_submission_with_tracking]
  rw [if_neg (by simp [hf]), if_neg hne]
  simp [hv, hm]

/-- C4: when the Review Adapter reports a terminal AI failure for an item
(invalid-format outcome whose feedback carries the `AI_REVIEW_FAILED`
marker), the orchestrator submits no grade for it, deletes none of its
files, records exactly that item in the failure report, marks the run
aborted, and processes none of the items after it. -/
theorem C4_ai_failure_aborts (env : ItemEnv) (pre post : List ItemEnv)
    (hf : env.fetchOk = true) (hne : env.files ≠ [])
    (hv : env.review.is_valid_format = false)
    (hm : containsSub aiFailMarker env.review.feedback = true)
    (hpre : ∀ e ∈ pre, (process_submission_with_tracking e).1.1 = true) :
    process_submission_with_tracking env = ((false, "ai_failure"), ⟨none, false⟩)
  ∧ (mainLoop (pre ++ env :: post)).aborted = true
  ∧ (mainLoop (pre ++ env :: post)).failed
      = [⟨env.studentName, env.assignmentName, "AI review failed after max retries"⟩]
  ∧ (mainLoop (pre ++ env :: post)).log.length = pre.length + 1
  ∧ (mainLoop (pre ++ env :: post)).failedCount = 1 := by
  have hp := process_ai_failure env hf hne hv hm
  have hfail : (process_submission_with_tracking env).1.1 = false := by rw [hp]
  have key : ∀ pre2 : List ItemEnv,
      (∀ e ∈ pre2, (process_submission_with_tracking e).1.1 = true) →
      (mainLoop (pre2 ++ env :: post)).aborted = true
    ∧ (mainLoop (pre2 ++ env :: post)).failed
        = [⟨env.studentName, env.assignmentName, "AI review failed after max retries"⟩]
    ∧ (mainLoop (pre2 ++ env :: post)).log.length = pre2.length + 1
    ∧ (mainLoop (pre2 ++ env :: post)).failedCount = 1 := by
    intro pre2
    induction pre2 with
    | nil =>
      intro _
      rw [List.nil_append, mainLoop_cons_failure env post hfail]
      exact ⟨rfl, rfl, rfl, rfl⟩
    | cons x xs ih =>
      intro hpre2
      have hx := hpre2 x (List.mem_cons_self _ _)
      have ihh := ih (fun e he => hpre2 e (List.mem_cons_of_mem _ he))
      rw [List.cons_append, mainLoop_cons_success x _ hx]
      exact ⟨ihh.1, ihh.2.1, by simp only [List.length_cons, ihh.2.2.1], ihh.2.2.2⟩
  exact ⟨hp, key pre hpre⟩

/-- C4 witness: in a three-item run whose second item hits a terminal AI
failure, the run aborts after two items with only Carol in the failure
report. -/
theorem C4_witness :
    (mainLoop [⟨"Dan", "HW0", true, [], ⟨true, true, none, [], 0⟩, true⟩,
               ⟨"Carol", "HW3", true, ["bad.pdf".toList],
                 ⟨false, false, none, "AI_REVIEW_FAILED: boom".toList, 3⟩, true⟩,
               ⟨"Pat", "HW9", true, [], ⟨true, true, none, [], 0⟩, true⟩]).aborted = true
  ∧ (mainLoop [⟨"Dan", "HW0", true, [], ⟨true, true, none, [], 0⟩, true⟩,
               ⟨"Carol", "HW3", true, ["bad.pdf".toList],
                 ⟨false, false, none, "AI_REVIEW_FAILED: boom".toList, 3⟩, true⟩,
               ⟨"Pat", "HW9", true, [], ⟨true, true, none, [], 0⟩, true⟩]).failed
      = [⟨"Carol", "HW3", "AI review failed after max retries"⟩]
  ∧ (mainLoop [⟨"Dan", "HW0", true, [], ⟨true, true, none, [], 0⟩, true⟩,
               ⟨"Carol", "HW3", true, ["bad.pdf".toList],
                 ⟨false, false, none, "AI_REVIEW_FAILED: boom".toList, 3⟩, true⟩,
               ⟨"Pat", "HW9", true, [], ⟨true, true, none, [], 0⟩, true⟩]).log.length = 2
  ∧ process_submission_with_tracking
      ⟨"Carol", "HW3", true, ["bad.pdf".toList],
        ⟨false, false, none, "AI_REVIEW_FAILED: boom".toList, 3⟩, true⟩
      = ((false, "ai_failure"), ⟨none, false⟩) := by
  have h := C4_ai_failure_aborts
    ⟨"Carol", "HW3", true, ["bad.pdf".toList],
      ⟨false, false, none, "AI_REVIEW_FAILED: boom".toList, 3⟩, true⟩
    [⟨"Dan", "HW0", true, [], ⟨true, true, none, [], 0⟩, true⟩]
    [⟨"Pat", "HW9", true, [], ⟨true, true, none, [], 0⟩, true⟩]
    rfl (by simp) rfl (by decide)
    (by intro e he; simp at he; subst he; decide)
  exact ⟨h.2.1, h.2.2.1, h.2.2.2.1, h.1⟩

/-- C10: an item whose fetched detail yields zero files is reported as
success with outcome `no_files` unconditionally — the zero-grade feedback
submission is attempted (marks 0) but its success flag is ignored — and
the orchestrator counts it processed, adds nothing to the failure report,
and keeps going. -/
theorem C10_no_files (env : ItemEnv) (rest : List ItemEnv)
    (hf : env.fetchOk = true) (h0 : env.files = []) :
    process_submission_with_tracking env = ((true, "no_files"), ⟨some 0, false⟩)
  ∧ (mainLoop (env :: rest)).processed = (mainLoop rest).processed + 1
  ∧ (mainLoop (env :: rest)).failed = (mainLoop rest).failed
  ∧ (mainLoop (env :: rest)).failedCount = (mainLoop rest).failedCount
  ∧ (mainLoop (env :: rest)).aborted = (mainLoop rest).aborted := by
  have hp : process_submission_with_tracking env = ((true, "no_files"), ⟨some 0, false⟩) := by
    rw [process_submission_with_tracking]
    rw [if_neg (by simp [hf]), if_pos h0]
  have hs : (process_submission_with_tracking env).1.1 = true := by rw [hp]
  rw [mainLoop_cons_success env rest hs]
  exact ⟨hp, rfl, rfl, rfl, rfl⟩

/-- C10 witness: a zero-file item whose feedback submission fails
(`submitOk = false`) is still counted processed with no failure entry. -/
theorem C10_witness :
    process_submission_with_tracking ⟨"Eve", "HW4", true, [], ⟨true, true, none, [], 0⟩, false⟩
      = ((true, "no_files"), ⟨some 0, false⟩)
  ∧ (mainLoop [⟨"Eve", "HW4", true, [], ⟨true, true, none, [], 0⟩, false⟩]).processed = 1
  ∧ (mainLoop [⟨"Eve", "HW4", true, [], ⟨true, true, none, [], 0⟩, false⟩]).failed = []
  ∧ (mainLoop [⟨"Eve", "HW4", true, [], ⟨true, true, none, [], 0⟩, false⟩]).aborted = false := by
  have h := C10_no_files ⟨"Eve", "HW4", true, [], ⟨true, true, none, [], 0⟩, false⟩ [] rfl rfl
  exact ⟨h.1, by rw [h.2.1]; rfl, by rw [h.2.2.1]; rfl, by rw [h.2.2.2.2]; rfl⟩

/-- C5 (code evaluated at the failing input): an item whose review
succeeds but whose grade submission fails returns
`(False, 'pdf_graded')` keeping its files, and `main`'s loop then breaks:
the second pending item is never processed, the run is aborted, and the
failure entry mis-states the reason as an AI review failure.  The spec
instead requires the run to continue with the next item. -/
theorem C5_submit_failure_aborts :
    process_submission_with_tracking
        ⟨"Alice", "HW1", true, ["a.pdf".toList], ⟨true, true, some 80, "ok".toList, 1⟩, false⟩
      = ((false, "pdf_graded"), ⟨some 80, false⟩)
  ∧ mainLoop
      [⟨"Alice", "HW1", true, ["a.pdf".toList], ⟨true, true, some 80, "ok".toList, 1⟩, false⟩,
       ⟨"Bob", "HW2", true, [], ⟨true, true, some 10, [], 1⟩, true⟩]
      = ⟨[(⟨"Alice", "HW1", true, ["a.pdf".toList], ⟨true, true, some 80, "ok".toList, 1⟩, false⟩,
           ((false, "pdf_graded"), ⟨some 80, false⟩))], true,
         [⟨"Alice", "HW1", "AI review failed after max retries"⟩], 0, 1⟩ :=
  ⟨by decide, by decide⟩
